import Mathlib

/-!
Verification of the NetworkBot monitoring subsystem (`utils/monitoring.js`,
`utils/diagnostics.js`, `app.js`) against its natural-language specification.

JavaScript values that flow through the monitoring pipeline are modelled by a
small JSON-like datatype `JSValue`; the JS functions under scrutiny are
translated into executable Lean definitions over that datatype, and each
specification claim is settled by a theorem about those definitions.
-/

namespace NetworkBot

/-- JS whitespace characters relevant to `String.prototype.trim`. -/
def isJsWs (c : Char) : Bool :=
  c = ' ' || c = '\t' || c = '\n' || c = '\r' || c = '\x0b' || c = '\x0c'

/-- JS trim on a character list. -/
def jsTrimChars (cs : List Char) : List Char :=
  ((cs.dropWhile isJsWs).reverse.dropWhile isJsWs).reverse

/-- JS `s.trim()`. -/
def jsTrimStr (s : String) : String :=
  ⟨jsTrimChars s.data⟩

/-- Substring occurrence test on character lists. -/
def containsSub (needle : List Char) : List Char → Bool
  | [] => needle.isEmpty
  | c :: rest => needle.isPrefixOf (c :: rest) || containsSub needle rest

/-- JS `hay.includes(needle)`. -/
def strContains (hay needle : String) : Bool :=
  containsSub needle.data hay.data

/-- JSON-ish JavaScript value as it appears in parsed API responses.
`jundef` models `undefined` (absent value), `jnull` models `null`. -/
inductive JSValue where
  | jnull
  | jundef
  | jbool (b : Bool)
  | jnum (n : Int)
  | jstr (s : String)
  | jarr (xs : List JSValue)
  | jobj (fields : List (String × JSValue))
  deriving Repr

namespace JSValue

mutual

/-- Structural equality test on `JSValue`. -/
def beqVal : JSValue → JSValue → Bool
  | .jnull, .jnull => true
  | .jundef, .jundef => true
  | .jbool a, .jbool b => a == b
  | .jnum a, .jnum b => a == b
  | .jstr a, .jstr b => a == b
  | .jarr a, .jarr b => beqList a b
  | .jobj a, .jobj b => beqFields a b
  | _, _ => false

/-- Structural equality test on lists of `JSValue`. -/
def beqList : List JSValue → List JSValue → Bool
  | [], [] => true
  | x :: xs, y :: ys => beqVal x y && beqList xs ys
  | _, _ => false

/-- Structural equality test on field lists. -/
def beqFields : List (String × JSValue) → List (String × JSValue) → Bool
  | [], [] => true
  | (k, v) :: xs, (l, w) :: ys => k == l && beqVal v w && beqFields xs ys
  | _, _ => false

end

mutual

theorem beqVal_iff : (a b : JSValue) → (beqVal a b = true ↔ a = b)
  | .jnull, b => by cases b <;> simp [beqVal]
  | .jundef, b => by cases b <;> simp [beqVal]
  | .jbool a, b => by cases b <;> simp [beqVal]
  | .jnum a, b => by cases b <;> simp [beqVal]
  | .jstr a, b => by cases b <;> simp [beqVal]
  | .jarr xs, b => by
    cases b <;> simp [beqVal]
    exact beqList_iff xs _
  | .jobj fs, b => by
    cases b <;> simp [beqVal]
    exact beqFields_iff fs _

theorem beqList_iff : (xs ys : List JSValue) → (beqList xs ys = true ↔ xs = ys)
  | [], [] => by simp [beqList]
  | [], _ :: _ => by simp [beqList]
  | _ :: _, [] => by simp [beqList]
  | x :: xs, y :: ys => by
    simp [beqList, beqVal_iff x y, beqList_iff xs ys]

theorem beqFields_iff :
    (xs ys : List (String × JSValue)) → (beqFields xs ys = true ↔ xs = ys)
  | [], [] => by simp [beqFields]
  | [], _ :: _ => by simp [beqFields]
  | _ :: _, [] => by simp [beqFields]
  | (k, v) :: xs, (l, w) :: ys => by
    simp [beqFields, beqVal_iff v w, beqFields_iff xs ys, and_assoc]

end

instance : DecidableEq JSValue := fun a b =>
  decidable_of_iff (beqVal a b = true) (beqVal_iff a b)

/-- JS property access `v.k` followed by the `!== undefined` test:
returns `none` when the access yields `undefined` (missing key, a key bound
to `undefined`, or a receiver that is not an object). Array values parsed
from JSON never carry named properties. -/
def jsGet : JSValue → String → Option JSValue
  | .jobj fs, k =>
    match fs.lookup k with
    | some x => if x = .jundef then none else some x
    | none => none
  | _, _ => none

/-- JS nullish test: `v == null`, true exactly for `null` and `undefined`. -/
def isNullish : JSValue → Bool
  | .jnull => true
  | .jundef => true
  | _ => false

/-- JS truthiness. -/
def jsTruthy : JSValue → Bool
  | .jnull => false
  | .jundef => false
  | .jbool b => b
  | .jnum n => n ≠ 0
  | .jstr s => s ≠ ""
  | .jarr _ => true
  | .jobj _ => true

/-- `a ?? b` (nullish coalescing). -/
def jsCoalesce (a b : JSValue) : JSValue :=
  if a.isNullish then b else a

/-- First non-nullish value among `obj.k` for `k` in `keys`; `jundef` when all
are nullish (models a chain `obj.k1 ?? obj.k2 ?? … `). -/
def coalesceGet (obj : JSValue) (keys : List String) : JSValue :=
  match keys with
  | [] => .jundef
  | k :: rest =>
    match obj.jsGet k with
    | some v => if v.isNullish then coalesceGet obj rest else v
    | none => coalesceGet obj rest

/-- Lower-casing by character (JS `toLowerCase` on the ASCII range). -/
def lowerStr (s : String) : String :=
  ⟨s.data.map Char.toLower⟩

/-- Decimal digit run to a number (`none` when empty or non-digit). -/
def parseDecDigits (cs : List Char) : Option Nat :=
  if cs ≠ [] ∧ cs.all Char.isDigit then
    some (cs.foldl (fun n c => n * 10 + (c.toNat - 48)) 0)
  else none

/-- JS `Number((string))` on a trimmed string restricted to optionally signed
decimal integers; `none` models `NaN`. -/
def jsStrToInt (cs : List Char) : Option Int :=
  match cs with
  | [] => some 0
  | '-' :: rest => (parseDecDigits rest).map fun n => -(n : Int)
  | '+' :: rest => (parseDecDigits rest).map fun n => (n : Int)
  | _ => (parseDecDigits cs).map fun n => (n : Int)

/-- JS `String(v)` for the value shapes that occur in the monitoring data. -/
def jsToString : JSValue → String
  | .jnull => "null"
  | .jundef => "undefined"
  | .jbool b => if b then "true" else "false"
  | .jnum n => toString n
  | .jstr s => s
  | .jarr xs =>
    match xs.map (fun x =>
      match x with
      | .jnull => ""
      | .jundef => ""
      | .jstr s => s
      | .jnum n => toString n
      | .jbool b => if b then "true" else "false"
      | _ => "") with
    | [] => ""
    | p :: ps => ps.foldl (fun acc q => acc ++ "," ++ q) p
  | .jobj _ => "[object Object]"

/-- JS `Number(v)` restricted to the primitive shapes that occur in status
fields; `none` models `NaN`. -/
def jsToNumber : JSValue → Option Int
  | .jnull => some 0
  | .jundef => none
  | .jbool b => some (if b then 1 else 0)
  | .jnum n => some n
  | .jstr s => jsStrToInt (jsTrimChars s.data)
  | .jarr _ => none
  | .jobj _ => none

/-- `Array.isArray`. -/
def isArray : JSValue → Bool
  | .jarr _ => true
  | _ => false

/-- `typeof v === 'object'` (true for objects, arrays and `null`). -/
def typeofIsObject : JSValue → Bool
  | .jobj _ => true
  | .jarr _ => true
  | .jnull => true
  | _ => false

/-- Elements of an array value, `[]` otherwise (`Array.isArray(x) ? x : []`). -/
def asArray : JSValue → List JSValue
  | .jarr xs => xs
  | _ => []

end JSValue

open JSValue

/-!
## `UniFiMonitor.apiRequest` response unwrapping (monitoring.js lines 200–204)

```js
const data = response.data;
if (data?.data !== undefined) return data.data;
if (Array.isArray(data)) return data;
if (data && typeof data === 'object') return [data];
return [];
```
-/

/-- The envelope-unwrap rule of `UniFiMonitor.apiRequest`. -/
def apiUnwrap (data : JSValue) : JSValue :=
  match data.jsGet "data" with
  | some v => v
  | none =>
    if data.isArray then data
    else if data.jsTruthy && data.typeofIsObject then .jarr [data]
    else .jarr []

/-- C1: the unwrap rule returns the `data` field for an enveloped object,
the array itself for a bare array, a one-element wrapping for a bare
non-array object, and `[]` for `null`/`undefined`. -/
theorem apiUnwrap_cases :
    (∀ (fs : List (String × JSValue)) (v : JSValue),
      fs.lookup "data" = some v → v ≠ .jundef → apiUnwrap (.jobj fs) = v) ∧
    (∀ xs : List JSValue, apiUnwrap (.jarr xs) = .jarr xs) ∧
    (∀ fs : List (String × JSValue),
      fs.lookup "data" = none → apiUnwrap (.jobj fs) = .jarr [.jobj fs]) ∧
    apiUnwrap .jnull = .jarr [] ∧
    apiUnwrap .jundef = .jarr [] := by
  refine ⟨?_, ?_, ?_, rfl, rfl⟩
  · intro fs v hl hv
    simp [apiUnwrap, jsGet, hl, hv]
  · intro xs
    simp [apiUnwrap, jsGet, isArray]
  · intro fs hl
    simp [apiUnwrap, jsGet, hl, isArray, jsTruthy, typeofIsObject]

/-- Witness for `apiUnwrap_cases` at concrete inputs. -/
theorem apiUnwrap_cases_witness :
    apiUnwrap (.jobj [("data", .jarr [.jnum 7])]) = .jarr [.jnum 7] ∧
    apiUnwrap (.jarr [.jnum 1, .jnum 2]) = .jarr [.jnum 1, .jnum 2] ∧
    apiUnwrap (.jobj [("mac", .jstr "aa:bb")]) = .jarr [.jobj [("mac", .jstr "aa:bb")]] ∧
    apiUnwrap .jnull = .jarr [] := by
  refine ⟨?_, apiUnwrap_cases.2.1 _, ?_, apiUnwrap_cases.2.2.2.1⟩
  · exact apiUnwrap_cases.1 _ _ (by decide) (by decide)
  · exact apiUnwrap_cases.2.2.1 _ (by decide)

/-- First non-nullish value of `obj.k` over `keys`, else the given default
(models `obj.k1 ?? obj.k2 ?? … ?? dflt`). -/
def coalesceGetD (obj : JSValue) (keys : List String) (dflt : JSValue) : JSValue :=
  let v := coalesceGet obj keys
  if v.isNullish then dflt else v

/-- `String(v).trim()`. -/
def strTrimOf (v : JSValue) : String :=
  jsTrimStr v.jsToString

/-!
## `UniFiMonitor.getHealthMetrics` (monitoring.js lines 427–473)
-/

/-- `devices`/`clients`/fleet counters; JS numbers are modelled as `Int` so
that `total - online` is exact arithmetic. -/
structure DeviceCounts where
  total : Int
  online : Int
  offline : Int
  deriving Repr, DecidableEq

structure ClientCounts where
  total : Int
  wireless : Int
  wired : Int
  deriving Repr, DecidableEq

/-- Result shape of `UniFiMonitor.getHealthMetrics` (the `timestamp` field,
a wall-clock reading, is left out of the model). -/
structure HealthMetrics where
  devices : DeviceCounts
  deviceTypes : List (String × Nat)
  devicesList : List JSValue
  clients : ClientCounts
  clientsList : List JSValue
  system : JSValue
  deriving Repr, DecidableEq

/-- The `deviceTypes` tally (`deviceTypes[type] = (deviceTypes[type] || 0) + 1`),
insertion-ordered like a JS object. -/
def tallyInsert (m : List (String × Nat)) (k : String) : List (String × Nat) :=
  match m with
  | [] => [(k, 1)]
  | (k', n) :: rest => if k' = k then (k', n + 1) :: rest else (k', n) :: tallyInsert rest k

def deviceTypesOf (devices : List JSValue) : List (String × Nat) :=
  devices.foldl
    (fun acc d =>
      let tv := (d.jsGet "type").getD .jundef
      tallyInsert acc (if tv.jsTruthy then tv.jsToString else "unknown"))
    []

/-- `c.ip ?? c.fixed_ip ?? c.network?.ip ?? ''` (local controller client). -/
def localClientIp (c : JSValue) : JSValue :=
  let v := coalesceGet c ["ip", "fixed_ip"]
  if !v.isNullish then v
  else
    let w :=
      match c.jsGet "network" with
      | some net => if net.isNullish then .jundef else (net.jsGet "ip").getD .jundef
      | none => .jundef
    if !w.isNullish then w else .jstr ""

/-- `isValidClient` of `UniFiMonitor.getHealthMetrics` (line 449). -/
def localIsValidClient (c : JSValue) : Bool :=
  c.jsTruthy && c.typeofIsObject &&
    (strTrimOf (coalesceGetD c ["mac", "mac_address"] (.jstr "")) ≠ "" ||
     strTrimOf (localClientIp c) ≠ "" ||
     strTrimOf (coalesceGetD c ["hostname", "name"] (.jstr "")) ≠ "")

/-- `isValidDevice` of `UniFiMonitor.getHealthMetrics` (line 451). -/
def localIsValidDevice (d : JSValue) : Bool :=
  d.jsTruthy && d.typeofIsObject &&
    strTrimOf (coalesceGetD d ["mac", "mac_address"] (.jstr "")) ≠ ""

/-- The pure computation of `UniFiMonitor.getHealthMetrics` on already
fetched device/client lists and system info: online devices are exactly the
ones with `state === 1`, wireless/wired clients the ones with
`is_wired === false` / `=== true`, lists filtered for a usable identifier
and capped at `MAX_LIST = 250`. -/
def uniFiHealthMetricsOf (devices clients : List JSValue) (system : JSValue) :
    HealthMetrics :=
  let onlineDevices : Int := ((devices.filter fun d => d.jsGet "state" = some (.jnum 1)).length : Int)
  let totalDevices : Int := (devices.length : Int)
  let activeClients : Int := ((clients.filter fun c => c.jsGet "is_wired" = some (.jbool false)).length : Int)
  let wiredClients : Int := ((clients.filter fun c => c.jsGet "is_wired" = some (.jbool true)).length : Int)
  { devices :=
      { total := totalDevices
        online := onlineDevices
        offline := totalDevices - onlineDevices }
    deviceTypes := deviceTypesOf devices
    devicesList := (devices.filter localIsValidDevice).take 250
    clients :=
      { total := (clients.length : Int)
        wireless := activeClients
        wired := wiredClients }
    clientsList := (clients.filter localIsValidClient).take 250
    system := system }

/-!
## `UniFiSiteManagerMonitor._deviceIsOnline` / `getHealthMetrics`
   (monitoring.js lines 825–882)
-/

/-- `String(d.state ?? d.connectionState ?? d.status ?? d.connection_status ?? '').toLowerCase()`. -/
def smStatusStr (d : JSValue) : String :=
  lowerStr (coalesceGetD d ["state", "connectionState", "status", "connection_status"] (.jstr "")).jsToString

/-- `UniFiSiteManagerMonitor._deviceIsOnline`. -/
def smDeviceIsOnline (d : JSValue) : Bool :=
  if d.isNullish || !d.typeofIsObject then false
  else
    let s := smStatusStr d
    if s = "connected" || s = "online" || s = "1" then true
    else if d.jsGet "connected" = some (.jbool true) || d.jsGet "isOnline" = some (.jbool true) then true
    else if (coalesceGet d ["state", "status"]).jsToNumber = some 1 then true
    else false

/-- The `anyWithStatus` probe inside the cloud `getHealthMetrics` (line 847):
`v = d.state ?? d.status ?? d.connectionState ?? d.connected ?? d.isOnline`
is neither `undefined` nor `null` nor `''`. -/
def smAnyWithStatus (d : JSValue) : Bool :=
  let v := coalesceGet d ["state", "status", "connectionState", "connected", "isOnline"]
  !v.isNullish && v ≠ .jstr ""

/-- The cloud online-device count with the all-statusless leniency flip
(lines 844–854). -/
def smOnlineCount (deviceList : List JSValue) : Int :=
  let online : Int := ((deviceList.filter smDeviceIsOnline).length : Int)
  if deviceList.length > 0 ∧ online = 0 ∧ ¬(deviceList.any smAnyWithStatus) then
    (deviceList.length : Int)
  else online

/-- Wireless-client predicate of the cloud `getHealthMetrics` (line 855). -/
def smIsWirelessClient (c : JSValue) : Bool :=
  c.jsTruthy &&
    (c.jsGet "is_wired" = some (.jbool false) ||
     c.jsGet "wired" = some (.jbool false) ||
     (let t := (c.jsGet "type").getD .jundef
      t.jsTruthy && strContains (lowerStr t.jsToString) "wireless"))

/-- `c.ip ?? c.fixed_ip ?? c.network?.ip ?? c.ip_address ?? ''` (cloud client). -/
def smClientIp (c : JSValue) : JSValue :=
  let v := coalesceGet c ["ip", "fixed_ip"]
  if !v.isNullish then v
  else
    let w :=
      match c.jsGet "network" with
      | some net => if net.isNullish then .jundef else (net.jsGet "ip").getD .jundef
      | none => .jundef
    if !w.isNullish then w
    else
      let u := coalesceGet c ["ip_address"]
      if !u.isNullish then u else .jstr ""

/-- `isValidClient` of the cloud `getHealthMetrics` (line 857). -/
def smIsValidClient (c : JSValue) : Bool :=
  c.jsTruthy && c.typeofIsObject &&
    (strTrimOf (coalesceGetD c ["mac", "mac_address"] (.jstr "")) ≠ "" ||
     strTrimOf (smClientIp c) ≠ "" ||
     strTrimOf (coalesceGetD c ["hostname", "name"] (.jstr "")) ≠ "")

/-- `isValidDevice` of the cloud `getHealthMetrics` (lines 859–864). -/
def smIsValidDevice (d : JSValue) : Bool :=
  d.jsTruthy && d.typeofIsObject &&
    (strTrimOf (coalesceGetD d ["mac", "mac_address"] (.jstr "")) ≠ "" ||
     strTrimOf (coalesceGetD d ["serial", "serial_number"] (.jstr "")) ≠ "" ||
     strTrimOf (coalesceGetD d ["id", "device_id", "_id"] (.jstr "")) ≠ "" ||
     strTrimOf (coalesceGetD d ["name", "hostname", "display_name", "device_name", "label"] (.jstr "")) ≠ "")

/-- Result shape of `UniFiSiteManagerMonitor.getHealthMetrics`
(`timestamp` again left out). -/
structure CloudMetrics where
  sitesTotal : Int
  sitesList : List JSValue
  devices : DeviceCounts
  devicesList : List JSValue
  rawDeviceList : List JSValue
  clients : ClientCounts
  clientsList : List JSValue
  deriving Repr, DecidableEq

/-- The pure computation of `UniFiSiteManagerMonitor.getHealthMetrics` on
already fetched site/device/client lists (lines 835–882). -/
def cloudHealthMetricsOf (sites devices clients : List JSValue) : CloudMetrics :=
  let online := smOnlineCount devices
  let wireless : Int := ((clients.filter smIsWirelessClient).length : Int)
  { sitesTotal := (sites.length : Int)
    sitesList := sites.take 100
    devices :=
      { total := (devices.length : Int)
        online := online
        offline := (devices.length : Int) - online }
    devicesList := (devices.filter smIsValidDevice).take 250
    rawDeviceList := devices.take 250
    clients :=
      { total := (clients.length : Int)
        wireless := wireless
        wired := (clients.length : Int) - wireless }
    clientsList := (clients.filter smIsValidClient).take 250 }

/-!
## Fleet-wide summary of `getMonitoringData` (monitoring.js lines 971–986)
-/

/-- One per-controller aggregation result (the fields consumed by the
summary computation and the context formatter). -/
structure ControllerAgg where
  name : String
  success : Bool
  metrics : Option HealthMetrics
  error : Option String
  alarms : List JSValue
  networks : List JSValue
  deriving Repr, DecidableEq

structure FleetSummary where
  controllersTotal : Int
  controllersOnline : Int
  controllersOffline : Int
  devices : DeviceCounts
  clients : ClientCounts
  deriving Repr, DecidableEq

/-- `c.metrics?.devices?.total || 0`-style accessor. -/
def metricDevTotal (c : ControllerAgg) : Int := ((c.metrics.map (·.devices.total)).getD 0)
def metricDevOnline (c : ControllerAgg) : Int := ((c.metrics.map (·.devices.online)).getD 0)
def metricCliTotal (c : ControllerAgg) : Int := ((c.metrics.map (·.clients.total)).getD 0)
def metricCliWireless (c : ControllerAgg) : Int := ((c.metrics.map (·.clients.wireless)).getD 0)
def metricCliWired (c : ControllerAgg) : Int := ((c.metrics.map (·.clients.wired)).getD 0)

/-- The fleet summary of `getMonitoringData`: computed only from successful
controllers, `none` when none succeeded; `devices.offline` is assigned as
`total - online` after the sums (line 985). -/
def fleetSummary (enabledCount : Int) (results : List ControllerAgg) :
    Option FleetSummary :=
  let ok := results.filter (·.success)
  if ok.isEmpty then none
  else
    let devTotal := (ok.map metricDevTotal).sum
    let devOnline := (ok.map metricDevOnline).sum
    some
      { controllersTotal := enabledCount
        controllersOnline := (ok.length : Int)
        controllersOffline := enabledCount - (ok.length : Int)
        devices := { total := devTotal, online := devOnline, offline := devTotal - devOnline }
        clients :=
          { total := (ok.map metricCliTotal).sum
            wireless := (ok.map metricCliWireless).sum
            wired := (ok.map metricCliWired).sum } }

/-!
## C10: `offline` is always the arithmetic complement of `online`
-/

/-- C10: in the local-controller health metrics, the cloud health metrics and
the fleet-wide summary, `devices.offline` equals `devices.total - devices.online`
— it is never tallied independently. -/
theorem devicesOffline_eq_total_sub_online :
    (∀ (ds cs : List JSValue) (sys : JSValue),
      (uniFiHealthMetricsOf ds cs sys).devices.offline =
        (uniFiHealthMetricsOf ds cs sys).devices.total -
          (uniFiHealthMetricsOf ds cs sys).devices.online) ∧
    (∀ ss ds cs : List JSValue,
      (cloudHealthMetricsOf ss ds cs).devices.offline =
        (cloudHealthMetricsOf ss ds cs).devices.total -
          (cloudHealthMetricsOf ss ds cs).devices.online) ∧
    (∀ (n : Int) (rs : List ControllerAgg) (s : FleetSummary),
      fleetSummary n rs = some s →
        s.devices.offline = s.devices.total - s.devices.online) := by
  refine ⟨fun ds cs sys => rfl, fun ss ds cs => rfl, fun n rs s h => ?_⟩
  unfold fleetSummary at h
  by_cases hok : (rs.filter (·.success)).isEmpty
  · simp [hok] at h
  · simp [hok] at h
    subst h
    rfl

/-- Concrete aggregation input used by the fleet-summary witness. -/
def sampleControllerAgg : ControllerAgg :=
  { name := "c1", success := true
    metrics := some (uniFiHealthMetricsOf [.jobj [("state", .jnum 1)]] [] (.jobj []))
    error := none, alarms := [], networks := [] }

/-- The summary `fleetSummary` produces on `sampleControllerAgg`. -/
def sampleFleetSummary : FleetSummary :=
  { controllersTotal := 1, controllersOnline := 1, controllersOffline := 0
    devices := { total := 1, online := 1, offline := 0 }
    clients := { total := 0, wireless := 0, wired := 0 } }

/-- Witness for `devicesOffline_eq_total_sub_online` at a concrete summary. -/
theorem devicesOffline_eq_total_sub_online_witness :
    fleetSummary 1 [sampleControllerAgg] = some sampleFleetSummary ∧
    sampleFleetSummary.devices.offline =
      sampleFleetSummary.devices.total - sampleFleetSummary.devices.online := by
  have hs : fleetSummary 1 [sampleControllerAgg] = some sampleFleetSummary := by decide
  exact ⟨hs, devicesOffline_eq_total_sub_online.2.2 1 [sampleControllerAgg] sampleFleetSummary hs⟩

/-!
## C3: the status-less-device leniency policy
-/

/-- A device carrying none of the status-like fields consulted by the cloud
client (`state`, `status`, `connectionState`, `connection_status`,
`connected`, `isOnline`). -/
def smNoStatusFields (d : JSValue) : Bool :=
  d.jsGet "state" = none && d.jsGet "status" = none &&
  d.jsGet "connectionState" = none && d.jsGet "connection_status" = none &&
  d.jsGet "connected" = none && d.jsGet "isOnline" = none

theorem smDeviceIsOnline_of_noStatus {d : JSValue} (h : smNoStatusFields d = true) :
    smDeviceIsOnline d = false := by
  simp only [smNoStatusFields, Bool.and_eq_true, decide_eq_true_eq] at h
  obtain ⟨⟨⟨⟨⟨h1, h2⟩, h3⟩, h4⟩, h5⟩, h6⟩ := h
  by_cases hc : (d.isNullish || !d.typeofIsObject) = true
  · simp [smDeviceIsOnline, hc]
  · have hb : (d.isNullish || !d.typeofIsObject) = false := by
      simpa using hc
    simp only [smDeviceIsOnline, hb, Bool.false_eq_true, if_false]
    simp only [smStatusStr, coalesceGetD, coalesceGet, h1, h2, h3, h4, h5, h6]
    decide

theorem smAnyWithStatus_of_noStatus {d : JSValue} (h : smNoStatusFields d = true) :
    smAnyWithStatus d = false := by
  simp only [smNoStatusFields, Bool.and_eq_true, decide_eq_true_eq] at h
  obtain ⟨⟨⟨⟨⟨h1, h2⟩, h3⟩, h4⟩, h5⟩, h6⟩ := h
  simp only [smAnyWithStatus, coalesceGet, h1, h2, h3, h5, h6]
  decide

/-- C3 (counterexample): in the local-controller client there is no leniency
default — a one-device list whose device carries no status-like field at all
reports `online = 0`, not the list length `1` the claim requires. -/
theorem localOnline_no_leniency_counterexample :
    (uniFiHealthMetricsOf [.jobj []] [] (.jobj [])).devices.online ≠
      (([JSValue.jobj []] : List JSValue).length : Int) ∧
    (uniFiHealthMetricsOf [.jobj []] [] (.jobj [])).devices.online = 0 := by
  constructor <;> decide

/-- C3 (amended): the all-statusless leniency default exists only in the cloud
client: there a non-empty device list in which every device lacks all of
`state`, `status`, `connectionState`, `connection_status`, `connected` and
`isOnline` is counted fully online, and a device whose `state` is the explicit
string `"offline"` (with no overriding `connected`/`isOnline` flag) is never
counted online and suppresses the flip for its whole list; the local
controller client applies no leniency at all — it counts online exactly the
devices with `state === 1`. -/
theorem onlineCount_leniency_amended :
    (∀ ss ds cs : List JSValue, ds ≠ [] → (∀ d ∈ ds, smNoStatusFields d = true) →
      (cloudHealthMetricsOf ss ds cs).devices.online = (ds.length : Int)) ∧
    (∀ (ss ds cs : List JSValue) (d : JSValue), d ∈ ds →
      d.jsGet "state" = some (.jstr "offline") →
      d.jsGet "connected" = none → d.jsGet "isOnline" = none →
      smDeviceIsOnline d = false ∧
      (cloudHealthMetricsOf ss ds cs).devices.online =
        ((ds.filter smDeviceIsOnline).length : Int)) ∧
    (∀ (ds cs : List JSValue) (sys : JSValue),
      (uniFiHealthMetricsOf ds cs sys).devices.online =
        ((ds.filter fun d => d.jsGet "state" = some (.jnum 1)).length : Int)) := by
  refine ⟨?_, ?_, fun ds cs sys => rfl⟩
  · intro ss ds cs hne hall
    have hfilter : ds.filter smDeviceIsOnline = [] := by
      refine List.filter_eq_nil_iff.mpr fun d hd => ?_
      simp [smDeviceIsOnline_of_noStatus (hall d hd)]
    have hany : ds.any smAnyWithStatus = false := by
      refine List.any_eq_false.mpr fun d hd => ?_
      simp [smAnyWithStatus_of_noStatus (hall d hd)]
    show smOnlineCount ds = (ds.length : Int)
    have hpos : 0 < ds.length := List.length_pos.mpr hne
    simp only [smOnlineCount, hfilter, hany]
    simp [hpos]
  · intro ss ds cs d hd hstate hconn hiso
    have hobj : d.isNullish = false ∧ d.typeofIsObject = true := by
      cases d <;> simp_all [jsGet, isNullish, typeofIsObject]
    have hoff : smDeviceIsOnline d = false := by
      simp only [smDeviceIsOnline, hobj.1, hobj.2, smStatusStr, coalesceGetD,
        coalesceGet, hstate, hconn, hiso]
      simp only [isNullish, Bool.false_eq_true, if_false]
      decide
    refine ⟨hoff, ?_⟩
    have hany : ds.any smAnyWithStatus = true := by
      refine List.any_eq_true.mpr ⟨d, hd, ?_⟩
      simp only [smAnyWithStatus, coalesceGet, hstate]
      simp only [isNullish, Bool.false_eq_true, if_false]
      decide
    show smOnlineCount ds = ((ds.filter smDeviceIsOnline).length : Int)
    simp [smOnlineCount, hany]

/-- Witness for `onlineCount_leniency_amended`: a two-device statusless cloud
list is counted fully online; a cloud list with one `state:"offline"` device
and one `state:"online"` device counts exactly the online one; a local list
with one statusless device counts zero online. -/
theorem onlineCount_leniency_amended_witness :
    (cloudHealthMetricsOf [] [.jobj [("mac", .jstr "a")], .jobj [("mac", .jstr "b")]] []).devices.online = 2 ∧
    (cloudHealthMetricsOf [] [.jobj [("state", .jstr "offline")], .jobj [("state", .jstr "online")]] []).devices.online = 1 ∧
    (uniFiHealthMetricsOf [.jobj []] [] (.jobj [])).devices.online = 0 := by
  refine ⟨?_, ?_, ?_⟩
  · have := onlineCount_leniency_amended.1 []
      [.jobj [("mac", .jstr "a")], .jobj [("mac", .jstr "b")]] []
      (by decide) (by decide)
    simpa using this
  · have := onlineCount_leniency_amended.2.1 []
      [.jobj [("state", .jstr "offline")], .jobj [("state", .jstr "online")]] []
      (.jobj [("state", .jstr "offline")]) (by decide) (by decide) (by decide) (by decide)
    have h2 := this.2
    rw [h2]
    decide
  · have := onlineCount_leniency_amended.2.2 [.jobj []] [] (.jobj [])
    simpa using this

/-!
## Typed fetchers of `UniFiMonitor` (monitoring.js lines 224–351, 427–473)

`apiRequest` either returns an unwrapped payload or throws; the per-endpoint
outcome of those calls is the input of this layer. Errors are carried as
their `message` strings.
-/

deriving instance DecidableEq for Except

/-- The outcome of `apiRequest` for each endpoint a fetcher consults. -/
structure ControllerFetch where
  apiSelf : Except String JSValue
  apiSites : Except String JSValue
  statDevice : Except String JSValue
  statSta : Except String JSValue
  restNetworkconf : Except String JSValue
  restWlanconf : Except String JSValue
  statAlarm : Except String JSValue
  restPortconf : Except String JSValue
  statHealth : Except String JSValue
  restPortforward : Except String JSValue
  statRouting : Except String JSValue
  deriving Repr, DecidableEq

/-- Result shape of `UniFiMonitor.getSystemInfo`. -/
structure SystemInfo where
  system : JSValue
  sites : JSValue
  deriving Repr, DecidableEq

/-- `x || dflt`. -/
def jsOrElse (v dflt : JSValue) : JSValue :=
  if v.jsTruthy then v else dflt

/-- `UniFiMonitor.getSystemInfo`: both inner `apiRequest` calls carry their
own `.catch` (`{}` / `[]`), so the function never rejects. -/
def uniFiGetSystemInfo (srv : ControllerFetch) : Except String SystemInfo :=
  let system := match srv.apiSelf with | .ok v => v | .error _ => .jobj []
  let sites := match srv.apiSites with | .ok v => v | .error _ => .jarr []
  .ok
    { system :=
        if system.isArray then jsOrElse ((system.asArray.headD .jundef)) (.jobj [])
        else jsOrElse system (.jobj [])
      sites := if sites.isArray then sites else jsOrElse sites (.jarr []) }

/-- `UniFiMonitor.getDevices`: propagates `apiRequest` failures wrapped in a
`Failed to get UniFi devices:` message. -/
def uniFiGetDevices (srv : ControllerFetch) : Except String (List JSValue) :=
  match srv.statDevice with
  | .ok v => .ok v.asArray
  | .error e => .error ("Failed to get UniFi devices: " ++ e)

/-- `UniFiMonitor.getClients`: propagates failures like `getDevices`. -/
def uniFiGetClients (srv : ControllerFetch) : Except String (List JSValue) :=
  match srv.statSta with
  | .ok v => .ok v.asArray
  | .error e => .error ("Failed to get UniFi clients: " ++ e)

/-- `UniFiMonitor.getNetworks`: swallows failures into `[]`. -/
def uniFiGetNetworks (srv : ControllerFetch) : Except String (List JSValue) :=
  match srv.restNetworkconf with
  | .ok v => .ok v.asArray
  | .error _ => .ok []

/-- `UniFiMonitor.getWlans`: swallows failures into `[]`. -/
def uniFiGetWlans (srv : ControllerFetch) : Except String (List JSValue) :=
  match srv.restWlanconf with
  | .ok v => .ok v.asArray
  | .error _ => .ok []

/-- `UniFiMonitor.getAlarms(limit = 30)`: swallows failures into `[]`,
truncates to `limit`. -/
def uniFiGetAlarms (srv : ControllerFetch) (limit : Nat := 30) :
    Except String (List JSValue) :=
  match srv.statAlarm with
  | .ok v => .ok (v.asArray.take limit)
  | .error _ => .ok []

/-- `UniFiMonitor.getPortProfiles`: swallows failures into `[]`. -/
def uniFiGetPortProfiles (srv : ControllerFetch) : Except String (List JSValue) :=
  match srv.restPortconf with
  | .ok v => .ok v.asArray
  | .error _ => .ok []

/-- `UniFiMonitor.getSiteHealth`: swallows failures into `{}`. -/
def uniFiGetSiteHealth (srv : ControllerFetch) : Except String JSValue :=
  match srv.statHealth with
  | .ok raw =>
    let arr := if raw.isArray then raw.asArray else (if raw.jsTruthy then [raw] else [])
    .ok (jsOrElse (arr.headD .jundef) (.jobj []))
  | .error _ => .ok (.jobj [])

/-- `UniFiMonitor.getPortForwards`: swallows failures into `[]`. -/
def uniFiGetPortForwards (srv : ControllerFetch) : Except String (List JSValue) :=
  match srv.restPortforward with
  | .ok v => .ok v.asArray
  | .error _ => .ok []

/-- `UniFiMonitor.getRouting`: swallows failures into `[]`. -/
def uniFiGetRouting (srv : ControllerFetch) : Except String (List JSValue) :=
  match srv.statRouting with
  | .ok v => .ok v.asArray
  | .error _ => .ok []

/-- `UniFiMonitor.getHealthMetrics`: every inner fetch carries its own
`.catch` (`[]` / `{}`), so the computation always succeeds. -/
def uniFiGetHealthMetricsE (srv : ControllerFetch) : Except String HealthMetrics :=
  let devices := match uniFiGetDevices srv with | .ok l => l | .error _ => []
  let clients := match uniFiGetClients srv with | .ok l => l | .error _ => []
  let sysInfo := match uniFiGetSystemInfo srv with
    | .ok si => si
    | .error _ => { system := .jobj [], sites := .jarr [] }
  .ok (uniFiHealthMetricsOf devices clients (jsOrElse sysInfo.system (.jobj [])))

/-- `true` on `.ok`. -/
def exceptOk {ε α : Type} : Except ε α → Bool
  | .ok _ => true
  | .error _ => false

/-- The per-controller branch of `getMonitoringData` (lines 919–967): the
whole fetch bundle sits in one `try`/`catch` that tags the result, but every
fetch except `getHealthMetrics` carries its own `.catch`. -/
def aggregateController (name : String) (srv : ControllerFetch) : ControllerAgg :=
  match uniFiGetHealthMetricsE srv with
  | .ok m =>
    { name := name, success := true, metrics := some m, error := none
      alarms := match uniFiGetAlarms srv 30 with | .ok l => l | .error _ => []
      networks := match uniFiGetNetworks srv with | .ok l => l | .error _ => [] }
  | .error e =>
    { name := name, success := false, metrics := none, error := some e
      alarms := [], networks := [] }

/-- An unreachable controller: every endpoint rejects. -/
def srvAllFail : ControllerFetch :=
  let e : Except String JSValue := .error "connect ECONNREFUSED 10.0.0.1:443"
  { apiSelf := e, apiSites := e, statDevice := e, statSta := e
    restNetworkconf := e, restWlanconf := e, statAlarm := e, restPortconf := e
    statHealth := e, restPortforward := e, statRouting := e }

/-- C4 (counterexample): on an unreachable controller `getSystemInfo` and
`getHealthMetrics` do not surface any error — they return success-shaped
empty results, and the aggregator flags the controller as successful with
zeroed metrics instead of a per-source failure. -/
theorem errorPropagation_counterexample :
    uniFiGetSystemInfo srvAllFail = .ok { system := .jobj [], sites := .jarr [] } ∧
    uniFiGetHealthMetricsE srvAllFail = .ok (uniFiHealthMetricsOf [] [] (.jobj [])) ∧
    (aggregateController "controller-1" srvAllFail).success = true ∧
    (aggregateController "controller-1" srvAllFail).error = none := by
  refine ⟨rfl, rfl, rfl, rfl⟩

/-- C4 (amended): only `getDevices` and `getClients` surface their errors
(wrapped in a descriptive message); `getSystemInfo` and `getHealthMetrics`
swallow all inner failures and always succeed, so the aggregator's
per-source failure flag — whose `catch` would convert a thrown error into
`success: false` with the error message — is never triggered by an
unreachable controller; every supplementary fetcher swallows its failure
into an empty result. -/
theorem errorPropagation_amended :
    (∀ (srv : ControllerFetch) (e : String), srv.statDevice = .error e →
      uniFiGetDevices srv = .error ("Failed to get UniFi devices: " ++ e)) ∧
    (∀ (srv : ControllerFetch) (e : String), srv.statSta = .error e →
      uniFiGetClients srv = .error ("Failed to get UniFi clients: " ++ e)) ∧
    (∀ srv : ControllerFetch, exceptOk (uniFiGetSystemInfo srv) = true) ∧
    (∀ srv : ControllerFetch, exceptOk (uniFiGetHealthMetricsE srv) = true) ∧
    (∀ (srv : ControllerFetch) (e : String), srv.restNetworkconf = .error e →
      uniFiGetNetworks srv = .ok []) ∧
    (∀ (srv : ControllerFetch) (e : String), srv.statAlarm = .error e →
      uniFiGetAlarms srv 30 = .ok []) ∧
    (∀ (srv : ControllerFetch) (e : String), srv.statRouting = .error e →
      uniFiGetRouting srv = .ok []) ∧
    (∀ (name : String) (srv : ControllerFetch),
      (aggregateController name srv).success = true) := by
  refine ⟨?_, ?_, fun srv => rfl, fun srv => rfl, ?_, ?_, ?_, ?_⟩
  · intro srv e h; simp [uniFiGetDevices, h]
  · intro srv e h; simp [uniFiGetClients, h]
  · intro srv e h; simp [uniFiGetNetworks, h]
  · intro srv e h; simp [uniFiGetAlarms, h]
  · intro srv e h; simp [uniFiGetRouting, h]
  · intro name srv
    simp [aggregateController, uniFiGetHealthMetricsE]

/-- Witness for `errorPropagation_amended` on the unreachable controller. -/
theorem errorPropagation_amended_witness :
    uniFiGetDevices srvAllFail =
      .error "Failed to get UniFi devices: connect ECONNREFUSED 10.0.0.1:443" ∧
    uniFiGetClients srvAllFail =
      .error "Failed to get UniFi clients: connect ECONNREFUSED 10.0.0.1:443" ∧
    uniFiGetNetworks srvAllFail = .ok [] ∧
    (aggregateController "c" srvAllFail).success = true := by
  exact ⟨errorPropagation_amended.1 srvAllFail _ rfl,
    errorPropagation_amended.2.1 srvAllFail _ rfl,
    errorPropagation_amended.2.2.2.2.1 srvAllFail _ rfl,
    errorPropagation_amended.2.2.2.2.2.2.2 "c" srvAllFail⟩

/-!
## `UniFiMonitor.apiRequest` auth/prefix retry flow (monitoring.js 99–219)

The client's session fields (`cookie`, `csrfToken`, `apiPrefix`,
`useSessionAuth`) are the mutable state; the controller is a function from
request kind and attempt index to an HTTP outcome. `axios` with
`validateStatus: s => s < 500` resolves every status below 500 and rejects
with `err.response.status` for 5xx or `err.code` for transport errors. The
model fixes the common configuration where the base URL carries no
`/proxy/network` or `/unifi-api/network` segment, so the synchronous
`detectApiPrefix` picks `/proxy/network`. Recursion is fuel-indexed:
`outOfFuel` for every fuel amount exhibits non-termination.
-/

inductive ApiPrefix where
  | proxyNetwork
  | unifiApiNetwork
  deriving Repr, DecidableEq

/-- Session-related fields of a `UniFiMonitor` instance plus request
counters used to index the server's answer streams. -/
structure MonState where
  cookie : Option String
  csrfToken : Option String
  apiPrefix : Option ApiPrefix
  useSessionAuth : Option Bool
  loginCount : Nat
  probeCount : Nat
  dataCount : Nat
  deriving Repr, DecidableEq

/-- Outcome of one `axios` call under `validateStatus: s => s < 500`. -/
inductive HttpOutcome where
  | resolved (status : Nat) (body : JSValue) (setCookie : Option String) (csrf : Option String)
  | netErr (code : String)
  | httpErr (status : Nat)
  deriving Repr

/-- Errors thrown inside `authenticate`/`apiRequest`: plain `new Error(msg)`
values, or axios rejections carrying a transport code / response status. -/
inductive JsError where
  | plainError (msg : String)
  | axiosNetErr (code : String)
  | axiosHttpErr (status : Nat)
  deriving Repr, DecidableEq

/-- The controller as seen over HTTP: answers for the login POST, the
prefix-probe GETs and the data GETs, each indexed by attempt number. -/
structure ControllerHttp where
  login : Nat → HttpOutcome
  probeSelf : ApiPrefix → Nat → HttpOutcome
  data : ApiPrefix → Bool → Nat → HttpOutcome

/-- `detectApiPrefix` for a base URL without prefix markers (line 72 else
branch): `/proxy/network`. -/
def detectApiPrefixSync (s : MonState) : MonState :=
  { s with apiPrefix := some .proxyNetwork }

/-- One probe GET `{prefix}/api/self`: success when status 200 and
`res.data?.meta?.rc === 'ok' || res.data?.data != null`; axios errors are
caught and count as failure. -/
def probeOne (srv : ControllerHttp) (s : MonState) (pfx : ApiPrefix) :
    Bool × MonState :=
  let s' := { s with probeCount := s.probeCount + 1 }
  match srv.probeSelf pfx s.probeCount with
  | .resolved status body _ _ =>
    let metaOk :=
      match body.jsGet "meta" with
      | some m => m.jsGet "rc" = some (.jstr "ok")
      | none => false
    let dataOk := !((body.jsGet "data").getD .jundef).isNullish
    (status = 200 && (metaOk || dataOk), s')
  | .netErr _ => (false, s')
  | .httpErr _ => (false, s')

/-- `detectApiPrefixByProbing`: tries `/unifi-api/network` then
`/proxy/network`, falls back to `detectApiPrefix` (never throws — each GET
is caught). -/
def detectApiPrefixByProbing (srv : ControllerHttp) (s : MonState) : MonState :=
  let (ok1, s1) := probeOne srv s .unifiApiNetwork
  if ok1 then { s1 with apiPrefix := some .unifiApiNetwork }
  else
    let (ok2, s2) := probeOne srv s1 .proxyNetwork
    if ok2 then { s2 with apiPrefix := some .proxyNetwork }
    else detectApiPrefixSync s2

/-- Result of `authenticate`: a new state, or a thrown error together with
the state as mutated up to the throw. -/
inductive AuthResult where
  | ok (s : MonState)
  | err (e : JsError) (s : MonState)
  deriving Repr

/-- `UniFiMonitor.authenticate` (lines 99–133): POST `/api/auth/login` with
the key as password; on 200 capture cookie and CSRF token, probe the API
prefix and commit to session auth; otherwise throw a descriptive error
(the login call itself resolves for any status `< 500`, so a 401 login is
seen as `status !== 200` and surfaces through the generic wrap). -/
def authenticate (srv : ControllerHttp) (s : MonState) : AuthResult :=
  let s' := { s with loginCount := s.loginCount + 1 }
  match srv.login s.loginCount with
  | .resolved status _ setCookie csrf =>
    if status ≠ 200 then
      .err (.plainError "UniFi authentication error: UniFi API key authentication failed") s'
    else
      let s2 := { s' with
        cookie := match setCookie with | some c => some c | none => s'.cookie
        csrfToken := csrf }
      let s3 := detectApiPrefixByProbing srv s2
      .ok { s3 with useSessionAuth := some true }
  | .netErr code =>
    if code = "ECONNREFUSED" then
      .err (.plainError "Cannot connect to UniFi controller at <base>") s'
    else
      .err (.plainError ("UniFi authentication error: " ++ code)) s'
  | .httpErr status =>
    if status = 401 ∨ status = 403 then
      .err (.plainError "UniFi API key is invalid or expired. Check Network > Control Plane > Integrations (or Controller Settings → API Access).") s'
    else
      .err (.plainError ("UniFi authentication error: Request failed with status code " ++ toString status)) s'

/-- Result of the fuel-indexed `apiRequest` interpreter. -/
inductive ApiResult where
  | ok (v : JSValue) (s : MonState)
  | err (e : JsError) (s : MonState)
  | outOfFuel
  deriving Repr, DecidableEq

/-- `doRequest(useSession)` inside `apiRequest`: `getApiBaseUrl` runs the
synchronous `detectApiPrefix` when no prefix is set, then issues the GET. -/
def doRequest (srv : ControllerHttp) (s : MonState) (useSession : Bool) :
    HttpOutcome × MonState :=
  let pfx := s.apiPrefix.getD .proxyNetwork
  (srv.data pfx useSession s.dataCount,
    { s with apiPrefix := some pfx, dataCount := s.dataCount + 1 })

/-- The `catch` block of `apiRequest` (lines 205–218): `ECONNREFUSED` and
response-status 401/403 become descriptive errors, a *rejection* carrying
status 404 with a prefix set flips the prefix and recurses; everything else
rethrows. -/
def apiCatch (recurse : MonState → ApiResult) (e : JsError) (s : MonState) :
    ApiResult :=
  match e with
  | .axiosNetErr code =>
    if code = "ECONNREFUSED" then
      .err (.plainError "Cannot connect to UniFi controller at <baseUrl>") s
    else .err e s
  | .axiosHttpErr status =>
    if status = 401 ∨ status = 403 then
      .err (.plainError "UniFi API key authentication failed. Check your API key.") s
    else if status = 404 ∧ s.apiPrefix.isSome then
      let other : ApiPrefix :=
        if s.apiPrefix = some .proxyNetwork then .unifiApiNetwork else .proxyNetwork
      recurse { s with apiPrefix := some other }
    else .err e s
  | .plainError _ => .err e s

/-- The tail of the `try` block (lines 191–204): a resolved 401/403 fully
resets the cached session, re-authenticates and recursively restarts the
request; any other resolved status is unwrapped by `apiUnwrap`. -/
def apiAfterResponse (srv : ControllerHttp) (recurse : MonState → ApiResult)
    (resp : HttpOutcome) (s : MonState) : ApiResult :=
  match resp with
  | .resolved status body _ _ =>
    if status = 401 ∨ status = 403 then
      let s2 := { s with cookie := none, csrfToken := none, apiPrefix := none,
                          useSessionAuth := none }
      match authenticate srv s2 with
      | .ok s3 => recurse s3
      | .err e s3 => apiCatch recurse e s3
    else .ok (apiUnwrap body) s
  | .netErr code => apiCatch recurse (.axiosNetErr code) s
  | .httpErr status => apiCatch recurse (.axiosHttpErr status) s

/-- Fuel-indexed interpreter of `UniFiMonitor.apiRequest` (lines 159–219). -/
def apiRequest (srv : ControllerHttp) : Nat → MonState → ApiResult
  | 0, _ => .outOfFuel
  | fuel + 1, s =>
    let recurse := apiRequest srv fuel
    if s.useSessionAuth ≠ some true then
      let (r1, s1) := doRequest srv s false
      match r1 with
      | .resolved status _ _ _ =>
        if status = 401 ∨ status = 403 then
          let s2 := { s1 with useSessionAuth := some true }
          match authenticate srv s2 with
          | .ok s3 =>
            let (r2, s4) := doRequest srv s3 true
            apiAfterResponse srv recurse r2 s4
          | .err e s3 => apiCatch recurse e s3
        else apiAfterResponse srv recurse r1 s1
      | .netErr code => apiCatch recurse (.axiosNetErr code) s1
      | .httpErr status => apiCatch recurse (.axiosHttpErr status) s1
    else
      match (if s.cookie.isNone then authenticate srv s else .ok s) with
      | .ok s1 =>
        let (r, s2) := doRequest srv s1 true
        apiAfterResponse srv recurse r s2
      | .err e s1 => apiCatch recurse e s1

/-- A controller whose login always succeeds (setting a session cookie and a
probe-recognisable prefix) while every data request keeps answering 401. -/
def srvLoginOkData401 : ControllerHttp :=
  { login := fun _ => .resolved 200 (.jobj []) (some "TOKEN=abc") (some "csrf-1")
    probeSelf := fun _ _ => .resolved 200 (.jobj [("data", .jarr [])]) none none
    data := fun _ _ _ => .resolved 401 (.jobj []) none none }

/-- C2: against `srvLoginOkData401` the retry flow never terminates — for
every fuel amount and every starting session state the interpreter runs out
of fuel, because each 401 resets the session, re-authenticates successfully
and restarts the whole request with no retry counter. The documented
"at most one upgrade retry, one full-reset retry, then AuthError" bound does
not exist in the code. -/
theorem apiRequest_unbounded_retry :
    ∀ (fuel : Nat) (s : MonState),
      apiRequest srvLoginOkData401 fuel s = .outOfFuel := by
  intro fuel
  induction fuel with
  | zero => intro s; rfl
  | succ n ih =>
    intro s
    rcases hu : s.useSessionAuth with _ | b
    · simp only [apiRequest, hu, doRequest, srvLoginOkData401, authenticate,
        detectApiPrefixByProbing, probeOne, apiAfterResponse, jsGet, isNullish]
      simp only [apiCatch, apiUnwrap]
      norm_num
      exact ih _
    · rcases b with _ | _
      · simp only [apiRequest, hu, doRequest, srvLoginOkData401, authenticate,
          detectApiPrefixByProbing, probeOne, apiAfterResponse, jsGet, isNullish]
        norm_num
        exact ih _
      · rcases hc : s.cookie with _ | c <;>
          · simp only [apiRequest, hu, hc, doRequest, srvLoginOkData401, authenticate,
              detectApiPrefixByProbing, probeOne, apiAfterResponse, jsGet, isNullish]
            norm_num
            exact ih _

/-- A controller that answers 404 to the data request (wrong prefix). -/
def srvData404 : ControllerHttp :=
  { login := fun _ => .resolved 200 (.jobj []) (some "TOKEN=t") none
    probeSelf := fun _ _ => .netErr "EPROBE"
    data := fun _ _ _ => .resolved 404 (.jobj [("error", .jstr "not found")]) none none }

/-- Initial state with an already-assumed `/proxy/network` prefix. -/
def s404 : MonState :=
  { cookie := none, csrfToken := none, apiPrefix := some .proxyNetwork
    useSessionAuth := none, loginCount := 0, probeCount := 0, dataCount := 0 }

/-- C5: a 404 response never triggers the prefix flip: `validateStatus`
accepts every status below 500, so the 404 resolves, skips the catch block
whose `err.response?.status === 404` flip lives there, and is handed to the
envelope unwrapper — the request returns the wrapped 404 error body after
exactly one data request, with the assumed prefix unchanged. -/
theorem apiRequest_404_returns_body_without_flip :
    apiRequest srvData404 5 s404 =
      .ok (.jarr [.jobj [("error", .jstr "not found")]])
        { cookie := none, csrfToken := none, apiPrefix := some .proxyNetwork
          useSessionAuth := none, loginCount := 0, probeCount := 0, dataCount := 1 } := by
  rfl

/-!
## `utils/diagnostics.js`: host sanitization and the diagnostic runners
-/

/-- A character admitted by the host whitelist `[a-zA-Z0-9.\-_:\[\]]`. -/
def hostChar (c : Char) : Bool :=
  c.isAlpha || c.isDigit || c = '.' || c = '-' || c = '_' || c = ':' || c = '[' || c = ']'

/-- `sanitizeHost`: trims, rejects empty or over-253-character strings and any
string with a character outside the whitelist; returns the trimmed host. -/
def sanitizeHost (input : String) : Option String :=
  let s := jsTrimStr input
  if s.length = 0 ∨ s.length > 253 then none
  else if s.data.all hostChar then some s
  else none

/-- What a diagnostic runner does: return an error record without touching
the system, or invoke a command line / open a TCP connection. -/
inductive DiagAction where
  | reject (errMsg : String)
  | spawn (cmd : String)
  | connect (host : String) (port : Int)
  deriving Repr, DecidableEq

/-- `runPing(host, count)` up to the subprocess boundary (non-Windows
command line): sanitize, clamp the count into `[1, MAX_PING_COUNT = 5]`
(`parseInt(count, 10) || 4` maps 0 to the default 4), then exec. -/
def runPingAction (host : String) (count : Int) : DiagAction :=
  match sanitizeHost host with
  | none => .reject "Invalid or missing host"
  | some target =>
    let p := if count = 0 then 4 else count
    let c := min (max 1 p) 5
    .spawn ("ping -c " ++ toString c ++ " -W 3 " ++ target)

/-- `runTraceroute(host, maxHops)` up to the subprocess boundary: sanitize,
clamp hops into `[1, MAX_TRACEROUTE_HOPS = 20]`, then exec. -/
def runTracerouteAction (host : String) (maxHops : Int) : DiagAction :=
  match sanitizeHost host with
  | none => .reject "Invalid or missing host"
  | some target =>
    let p := if maxHops = 0 then 15 else maxHops
    let hops := min (max 1 p) 20
    .spawn ("traceroute -m " ++ toString hops ++ " " ++ target ++
      " 2>/dev/null || tracepath -m " ++ toString hops ++ " " ++ target)

/-- `testPort(host, port)` up to the TCP-connect boundary: sanitize the host
first, then validate the port range `[1, 65535]`. -/
def testPortAction (host : String) (port : Int) : DiagAction :=
  match sanitizeHost host with
  | none => .reject "Invalid or missing host"
  | some target =>
    if 1 ≤ port ∧ port ≤ 65535 then .connect target port
    else .reject "Invalid port (use 1-65535)"

/-- C6: every input that is empty after trimming, longer than 253
characters, or contains a character outside `A-Za-z0-9.-_:[]` is rejected by
`sanitizeHost`, and `runPing`, `runTraceroute` and `testPort` then return
their error record without spawning anything; conversely a spawned command
or opened connection only ever happens for a sanitizer-accepted host. -/
theorem hostSanitization_boundary :
    (∀ s : String,
      (jsTrimStr s = "" ∨ 253 < (jsTrimStr s).length ∨
        ¬((jsTrimStr s).data.all hostChar = true)) →
      sanitizeHost s = none ∧
      (∀ count : Int, runPingAction s count = .reject "Invalid or missing host") ∧
      (∀ hops : Int, runTracerouteAction s hops = .reject "Invalid or missing host") ∧
      (∀ port : Int, testPortAction s port = .reject "Invalid or missing host")) ∧
    (∀ (s cmd : String) (count : Int),
      runPingAction s count = .spawn cmd → (sanitizeHost s).isSome = true) ∧
    (∀ (s cmd : String) (hops : Int),
      runTracerouteAction s hops = .spawn cmd → (sanitizeHost s).isSome = true) ∧
    (∀ (s h : String) (port p : Int),
      testPortAction s port = .connect h p → (sanitizeHost s).isSome = true) := by
  have hnone : ∀ s : String,
      (jsTrimStr s = "" ∨ 253 < (jsTrimStr s).length ∨
        ¬((jsTrimStr s).data.all hostChar = true)) → sanitizeHost s = none := by
    intro s h
    simp only [sanitizeHost]
    split_ifs with h1 h2
    · rfl
    · exfalso
      rcases h with h | h | h
      · exact h1 (Or.inl (by simp [h]))
      · exact h1 (Or.inr h)
      · exact h h2
    · rfl
  refine ⟨fun s h => ⟨hnone s h, ?_, ?_, ?_⟩, ?_, ?_, ?_⟩
  · intro count; simp [runPingAction, hnone s h]
  · intro hops; simp [runTracerouteAction, hnone s h]
  · intro port; simp [testPortAction, hnone s h]
  · intro s cmd count hspawn
    unfold runPingAction at hspawn
    cases hs : sanitizeHost s <;> simp [hs] at hspawn ⊢
  · intro s cmd hops hspawn
    unfold runTracerouteAction at hspawn
    cases hs : sanitizeHost s <;> simp [hs] at hspawn ⊢
  · intro s h port p hconn
    unfold testPortAction at hconn
    cases hs : sanitizeHost s <;> simp [hs] at hconn ⊢

/-- Witness for `hostSanitization_boundary`: a shell-injection attempt is
rejected by all three runners; the spawn direction holds at a clean host. -/
theorem hostSanitization_boundary_witness :
    sanitizeHost "host; rm -rf /tmp" = none ∧
    runPingAction "host; rm -rf /tmp" 4 = .reject "Invalid or missing host" ∧
    runTracerouteAction "host; rm -rf /tmp" 15 = .reject "Invalid or missing host" ∧
    testPortAction "host; rm -rf /tmp" 80 = .reject "Invalid or missing host" ∧
    (sanitizeHost "example.com").isSome = true := by
  have h := hostSanitization_boundary.1 "host; rm -rf /tmp" (by right; right; decide)
  refine ⟨h.1, h.2.1 4, h.2.2.1 15, h.2.2.2 80, ?_⟩
  exact hostSanitization_boundary.2.1 "example.com"
    ("ping -c " ++ toString (4 : Int) ++ " -W 3 " ++ "example.com") 4 (by decide)

/-!
## `module.exports` of `utils/monitoring.js` and the `app.js` config handler
-/

/-- The names exported by `utils/monitoring.js` (lines 1765–1775). -/
def monitoringModuleExports : List String :=
  ["getMonitoringData", "getMonitoringContext", "lookupClientByIp",
   "testUniFiConnection", "testUniFiSiteManagerConnection",
   "requestSiteManagerPath", "UniFiMonitor", "UniFiSiteManagerMonitor",
   "PrometheusMonitor"]

/-- Outcome of calling a name destructured from a CommonJS module: a missing
export destructures to `undefined`, and calling it throws a `TypeError`. -/
inductive JsCallOutcome where
  | returned
  | typeError (msg : String)
  deriving Repr, DecidableEq

def callMonitoringExport (name : String) : JsCallOutcome :=
  if monitoringModuleExports.contains name then .returned
  else .typeError (name ++ " is not a function")

/-- The `PUT /api/config` handler's invalidation step (app.js line 242, also
line 336): when the update touches `monitoring` it calls
`invalidateMonitoringCache()` imported from `utils/monitoring`. -/
def configPutInvalidation : JsCallOutcome :=
  callMonitoringExport "invalidateMonitoringCache"

/-- C9: `utils/monitoring.js` does not export `invalidateMonitoringCache`,
so the server's config-change handler calls `undefined` and throws a
`TypeError` instead of invalidating any cache. -/
theorem invalidateMonitoringCache_not_exported :
    "invalidateMonitoringCache" ∉ monitoringModuleExports ∧
    configPutInvalidation =
      .typeError "invalidateMonitoringCache is not a function" := by
  constructor <;> decide


/-!
## Context-formatter list sections (monitoring.js 1056–1060, 1407–1463)

Each `context +=` of the formatter contributes one line; lines are tagged by
their provenance: a section or per-controller header, one rendered item, or
the `… and N more` truncation marker that only `formatCloudList` emits.
-/

inductive CtxLine where
  | header (text : String)
  | item (v : JSValue)
  | moreMarker (n : Nat)
  deriving Repr, DecidableEq

/-- Number of rendered item lines in a section. -/
def countItems (ls : List CtxLine) : Nat :=
  ls.countP fun l => match l with | .item _ => true | _ => false

/-- Whether the section carries an explicit remainder-count marker. -/
def hasMoreMarker (ls : List CtxLine) : Bool :=
  ls.any fun l => match l with | .moreMarker _ => true | _ => false

/-- `formatCloudList(arr, label, maxItems = 50)`: empty input renders
nothing; otherwise a header, one line per item of `arr.slice(0, maxItems)`,
and `… and N more` exactly when the list was longer than the cap. -/
def formatCloudListLines (arr : List JSValue) (label : String)
    (maxItems : Nat := 50) : List CtxLine :=
  if arr.isEmpty then []
  else
    .header ("UniFi Site Manager (cloud) – " ++ label ++
        " (use for user questions about this data):") ::
      (arr.take maxItems).map .item ++
      (if arr.length > maxItems then [.moreMarker (arr.length - maxItems)] else [])

/-- Per-controller block of the alarms section (lines 1451–1459): a header
with the count of the `slice(0, 20)` and its items — no marker. -/
def alarmsControllerLines (c : ControllerAgg) : List CtxLine :=
  .header ("- " ++ c.name ++ " (" ++ toString (min c.alarms.length 20) ++ " recent):") ::
    (c.alarms.take 20).map .item

/-- The full alarms section (lines 1446–1463). -/
def alarmsSectionLines (controllers : List ControllerAgg) : List CtxLine :=
  let withAlarms := controllers.filter fun c => c.success && !c.alarms.isEmpty
  if !withAlarms.isEmpty then
    .header "UniFi recent alarms (use for \"any issues?\", \"show alarms\", diagnostics):" ::
      (withAlarms.map alarmsControllerLines).flatten
  else if controllers.any (·.success) then
    [.header "UniFi alarms: no recent alarms (or alarm API not available)."]
  else []

/-- Per-controller block of the VLANs/networks section (lines 1413–1424):
the entire `controller.networks` list is rendered with no cap. -/
def networksControllerLines (c : ControllerAgg) : List CtxLine :=
  .header ("- " ++ c.name ++ ":") :: c.networks.map .item

/-- The full networks section (lines 1408–1425). -/
def networksSectionLines (controllers : List ControllerAgg) : List CtxLine :=
  let withNets := controllers.filter fun c => c.success && !c.networks.isEmpty
  if !withNets.isEmpty then
    .header "UniFi networks (VLANs); use for VLAN and subnet questions:" ::
      (withNets.map networksControllerLines).flatten
  else []

theorem countItems_header_cons (t : String) (ls : List CtxLine) :
    countItems (.header t :: ls) = countItems ls := by
  simp [countItems, List.countP_cons]

theorem countItems_append (a b : List CtxLine) :
    countItems (a ++ b) = countItems a + countItems b := by
  simp [countItems, List.countP_append]

theorem countItems_map_item (l : List JSValue) :
    countItems (l.map .item) = l.length := by
  induction l with
  | nil => rfl
  | cons x xs ih =>
    simp [countItems, List.countP_cons] at ih ⊢
    try omega

theorem hasMoreMarker_header_cons (t : String) (ls : List CtxLine) :
    hasMoreMarker (.header t :: ls) = hasMoreMarker ls := by
  simp [hasMoreMarker]

theorem hasMoreMarker_append (a b : List CtxLine) :
    hasMoreMarker (a ++ b) = (hasMoreMarker a || hasMoreMarker b) := by
  simp [hasMoreMarker, List.any_append]

theorem hasMoreMarker_map_item (l : List JSValue) :
    hasMoreMarker (l.map .item) = false := by
  induction l with
  | nil => rfl
  | cons x xs ih =>
    simp [hasMoreMarker, List.any_cons] at ih ⊢
    try exact ih

/-- A successful controller carrying 21 alarms. -/
def ctrl21Alarms : ControllerAgg :=
  { name := "c1", success := true, metrics := none, error := none
    alarms := List.replicate 21 (.jobj [("key", .jstr "EVT_AP_Lost_Contact")])
    networks := [] }

/-- C7 (counterexample): the alarms section truncates a 21-alarm source list
to its 20-item cap yet contains no remainder-count marker, contradicting
"whenever the source list is longer than the cap the rendered section
contains an explicit remainder marker". -/
theorem sectionCaps_counterexample :
    ctrl21Alarms.alarms.length = 21 ∧
    countItems (alarmsSectionLines [ctrl21Alarms]) = 20 ∧
    hasMoreMarker (alarmsSectionLines [ctrl21Alarms]) = false := by
  refine ⟨by decide, by decide, by decide⟩

/-- C7 (amended): the cloud sections rendered through `formatCloudList` are
capped at their explicit `maxItems` constant and carry the `… and N more`
marker exactly when truncated; the local alarms section is capped at 20
items per controller but never emits a marker; and the networks section
renders its whole source list uncapped. -/
theorem sectionCaps_amended :
    (∀ (arr : List JSValue) (label : String) (m : Nat),
      countItems (formatCloudListLines arr label m) ≤ m) ∧
    (∀ (arr : List JSValue) (label : String) (m : Nat),
      hasMoreMarker (formatCloudListLines arr label m) = true ↔ m < arr.length) ∧
    (∀ c : ControllerAgg, countItems (alarmsControllerLines c) ≤ 20) ∧
    (∀ cs : List ControllerAgg, hasMoreMarker (alarmsSectionLines cs) = false) ∧
    (∀ c : ControllerAgg, countItems (networksControllerLines c) = c.networks.length) := by
  refine ⟨?_, ?_, ?_, ?_, ?_⟩
  · intro arr label m
    by_cases he : arr.isEmpty
    · simp [formatCloudListLines, he, countItems]
    · simp only [formatCloudListLines, he, Bool.false_eq_true, if_false,
        countItems_header_cons, countItems_append, countItems_map_item]
      by_cases hl : arr.length > m <;>
        · simp [hl, countItems, List.countP_nil, List.countP_cons, List.length_take]
          try omega
  · intro arr label m
    by_cases he : arr.isEmpty
    · have harr : arr = [] := List.isEmpty_iff.mp he
      subst harr
      simp [formatCloudListLines, hasMoreMarker]
    · simp only [formatCloudListLines, he, Bool.false_eq_true, if_false,
        hasMoreMarker_header_cons, hasMoreMarker_append, hasMoreMarker_map_item]
      by_cases hl : arr.length > m
      · simp [hl, hasMoreMarker]
        try omega
      · simp [hl, hasMoreMarker]
        try omega
  · intro c
    simp only [alarmsControllerLines, countItems_header_cons, countItems_map_item,
      List.length_take]
    omega
  · intro cs
    simp only [alarmsSectionLines]
    by_cases h1 : (cs.filter fun c => c.success && !c.alarms.isEmpty).isEmpty
    · by_cases h2 : cs.any (·.success) <;> simp [h1, h2, hasMoreMarker]
    · simp only [h1, Bool.not_false, if_true, Bool.false_eq_true, if_false]
      refine List.any_eq_false.mpr ?_
      intro l hl
      simp only [List.mem_cons, List.mem_flatten, List.mem_map] at hl
      rcases hl with rfl | ⟨blk, ⟨c, hc, rfl⟩, hlb⟩
      · simp
      · simp only [alarmsControllerLines, List.mem_cons, List.mem_map] at hlb
        rcases hlb with rfl | ⟨a, _, rfl⟩ <;> simp
  · intro c
    simp only [networksControllerLines, countItems_header_cons, countItems_map_item]

/-- Witness for `sectionCaps_amended` at concrete lists: a 7-element cloud
list capped at 5 shows 5 items and the marker; at cap 50 all 7 items and no
marker; one controller with 3 networks renders all 3. -/
theorem sectionCaps_amended_witness :
    countItems (formatCloudListLines (List.replicate 7 (.jnum 1)) "alerts" 5) ≤ 5 ∧
    hasMoreMarker (formatCloudListLines (List.replicate 7 (.jnum 1)) "alerts" 5) = true ∧
    hasMoreMarker (formatCloudListLines (List.replicate 7 (.jnum 1)) "alerts" 50) = false ∧
    countItems (networksControllerLines
      { name := "c", success := true, metrics := none, error := none,
        alarms := [], networks := List.replicate 3 (.jobj []) }) = 3 := by
  refine ⟨sectionCaps_amended.1 _ "alerts" 5, ?_, ?_, ?_⟩
  · exact (sectionCaps_amended.2.1 (List.replicate 7 (.jnum 1)) "alerts" 5).mpr (by decide)
  · have h := sectionCaps_amended.2.1 (List.replicate 7 (.jnum 1)) "alerts" 50
    by_cases hb : hasMoreMarker (formatCloudListLines (List.replicate 7 (.jnum 1)) "alerts" 50) = true
    · exact absurd (h.mp hb) (by decide)
    · simpa using hb
  · have h := sectionCaps_amended.2.2.2.2
      { name := "c", success := true, metrics := none, error := none,
        alarms := [], networks := List.replicate 3 (.jobj []) }
    simpa using h


/-!
## Diagnostic-intent detectors (`utils/diagnostics.js` lines 325–406) and
## the formatter's diagnostic orchestration (monitoring.js lines 1146–1195)

The detectors are fixed regular expressions; they are embedded here as
explicit pattern scanners with the same leftmost-match, case-insensitive
semantics, including the local backtracking each optional group needs.
-/

structure PingReq where
  host : String
  count : Nat
  deriving Repr, DecidableEq

structure TraceReq where
  host : String
  maxHops : Nat
  deriving Repr, DecidableEq

structure PortReq where
  host : String
  port : Nat
  deriving Repr, DecidableEq

/-- Regex `\w` (word character). -/
def isWordChar (c : Char) : Bool :=
  c.isAlpha || c.isDigit || c = '_'

/-- Case-insensitive literal match, returning the rest of the input. -/
def matchCI : List Char → List Char → Option (List Char)
  | [], rest => some rest
  | _ :: _, [] => none
  | c :: cs, d :: ds => if c.toLower = d.toLower then matchCI cs ds else none

/-- Regex `\s+`: at least one whitespace, consumed greedily. -/
def skipWs1 : List Char → Option (List Char)
  | [] => none
  | c :: rest => if isJsWs c then some (rest.dropWhile isJsWs) else none

/-- Regex `([a-zA-Z0-9.\-_:\[\]]+)`: greedy non-empty host-character run. -/
def takeHost1 (l : List Char) : Option (List Char × List Char) :=
  let run := l.takeWhile hostChar
  if run.isEmpty then none else some (run, l.drop run.length)

/-- Regex `(\d{1,5})` whose continuation is `\s+`: the maximal digit run
must have length 1–5 (a longer run cannot be split so that whitespace
follows a digit). -/
def takeDigits1to5 (l : List Char) : Option (Nat × List Char) :=
  let ds := l.takeWhile Char.isDigit
  if ds.length < 1 ∨ ds.length > 5 then none
  else some ((parseDecDigits ds).getD 0, l.drop ds.length)

/-- Regex `(\d{1,5})` at the end of a pattern: the first up-to-five digits
of a non-empty run. -/
def takeDigits1to5Trailing (l : List Char) : Option (Nat × List Char) :=
  let ds := l.takeWhile Char.isDigit
  if ds.isEmpty then none
  else some ((parseDecDigits (ds.take 5)).getD 0, l.drop (min 5 ds.length))

/-- Optional trailing `(?:\s+(\d+))?` group with a default. -/
def optCountAfter (l : List Char) (dflt : Nat) : Nat :=
  match skipWs1 l with
  | some r =>
    let ds := r.takeWhile Char.isDigit
    if ds.isEmpty then dflt else (parseDecDigits ds).getD dflt
  | none => dflt

/-- Alternation of literal keywords (their first characters are pairwise
distinct in every use below, so no cross-alternative backtracking arises). -/
def matchAnyCI (kws : List (List Char)) (l : List Char) : Option (List Char) :=
  match kws with
  | [] => none
  | k :: rest =>
    match matchCI k l with
    | some r => some r
    | none => matchAnyCI rest l

/-- Leftmost scan for an attempt guarded by a `\b` word boundary. -/
def scanWithBoundary {α : Type} (att : List Char → Option α) :
    Option Char → List Char → Option α
  | _, [] => none
  | prev, c :: rest =>
    let boundary := match prev with | none => true | some p => !isWordChar p
    match (if boundary then att (c :: rest) else none) with
    | some r => some r
    | none => scanWithBoundary att (some c) rest

/-- Leftmost scan without a boundary requirement. -/
def scanAnywhere {α : Type} (att : List Char → Option α) : List Char → Option α
  | [] => none
  | c :: rest =>
    match att (c :: rest) with
    | some r => some r
    | none => scanAnywhere att rest

/-- Boolean leftmost scan with a `\b` boundary. -/
def scanBoundaryB (att : List Char → Bool) : Option Char → List Char → Bool
  | _, [] => false
  | prev, c :: rest =>
    let boundary := match prev with | none => true | some p => !isWordChar p
    (boundary && att (c :: rest)) || scanBoundaryB att (some c) rest

/-- `detectPingRequest`: `/\bping\s+([host]+)(?:\s+(\d+))?/i` on the
trimmed message; count defaults to 4. -/
def pingAt (l : List Char) : Option PingReq :=
  (matchCI "ping".data l).bind fun r1 =>
  (skipWs1 r1).bind fun r2 =>
  (takeHost1 r2).map fun hr =>
    { host := ⟨hr.1⟩, count := optCountAfter hr.2 4 }

def detectPingRequest (message : String) : Option PingReq :=
  scanWithBoundary pingAt none (jsTrimChars message.data)

/-- Tail `\s+(?:to\s+)?([host]+)(?:\s+(\d+))?` shared by the traceroute
keyword alternatives; the optional `to\s+` group backtracks to the bare
host when its own continuation fails. -/
def traceTail (r1 : List Char) : Option TraceReq :=
  (skipWs1 r1).bind fun r2 =>
    match (matchCI "to".data r2).bind (fun r3 => (skipWs1 r3).bind takeHost1) with
    | some hr => some { host := ⟨hr.1⟩, maxHops := optCountAfter hr.2 15 }
    | none =>
      (takeHost1 r2).map fun hr => { host := ⟨hr.1⟩, maxHops := optCountAfter hr.2 15 }

/-- `detectTracerouteRequest`:
`/\b(?:traceroute|tracert|trace\s+route)\s+(?:to\s+)?([host]+)(?:\s+(\d+))?/i`. -/
def traceAt (l : List Char) : Option TraceReq :=
  match (matchCI "traceroute".data l).bind traceTail with
  | some r => some r
  | none =>
    match (matchCI "tracert".data l).bind traceTail with
    | some r => some r
    | none =>
      (((matchCI "trace".data l).bind skipWs1).bind (matchCI "route".data)).bind traceTail

def detectTracerouteRequest (message : String) : Option TraceReq :=
  scanWithBoundary traceAt none (jsTrimChars message.data)

/-- `detectPortTestRequest` pattern 1:
`(?:test|check|is)\s+port\s+(\d{1,5})\s+(?:on|at|to)\s+([host]+)`. -/
def portP1At (l : List Char) : Option PortReq :=
  (matchAnyCI ["test".data, "check".data, "is".data] l).bind fun r1 =>
  (skipWs1 r1).bind fun r2 =>
  (matchCI "port".data r2).bind fun r3 =>
  (skipWs1 r3).bind fun r4 =>
  (takeDigits1to5 r4).bind fun pr =>
  (skipWs1 pr.2).bind fun r6 =>
  (matchAnyCI ["on".data, "at".data, "to".data] r6).bind fun r7 =>
  (skipWs1 r7).bind fun r8 =>
  (takeHost1 r8).map fun hr => { host := ⟨hr.1⟩, port := pr.1 }

/-- Pattern 2: `([host]+)\s+port\s+(\d{1,5})` (host characters are never
whitespace, so the greedy host capture needs no backtracking before `\s+`). -/
def portP2At (l : List Char) : Option PortReq :=
  (takeHost1 l).bind fun hr =>
  (skipWs1 hr.2).bind fun r2 =>
  (matchCI "port".data r2).bind fun r3 =>
  (skipWs1 r3).bind fun r4 =>
  (takeDigits1to5Trailing r4).map fun pr => { host := ⟨hr.1⟩, port := pr.1 }

/-- Pattern 3: `port\s+(\d{1,5})\s+(?:on|at)\s+([host]+)`. -/
def portP3At (l : List Char) : Option PortReq :=
  (matchCI "port".data l).bind fun r1 =>
  (skipWs1 r1).bind fun r2 =>
  (takeDigits1to5 r2).bind fun pr =>
  (skipWs1 pr.2).bind fun r4 =>
  (matchAnyCI ["on".data, "at".data] r4).bind fun r5 =>
  (skipWs1 r5).bind fun r6 =>
  (takeHost1 r6).map fun hr => { host := ⟨hr.1⟩, port := pr.1 }

/-- Pattern 4: `(?:test|check)\s+([host]+)\s+port\s+(\d{1,5})`. -/
def portP4At (l : List Char) : Option PortReq :=
  (matchAnyCI ["test".data, "check".data] l).bind fun r1 =>
  (skipWs1 r1).bind fun r2 =>
  (takeHost1 r2).bind fun hr =>
  (skipWs1 hr.2).bind fun r4 =>
  (matchCI "port".data r4).bind fun r5 =>
  (skipWs1 r5).bind fun r6 =>
  (takeDigits1to5Trailing r6).map fun pr => { host := ⟨hr.1⟩, port := pr.1 }

/-- The port range validation applied to each pattern's first match; an
out-of-range match falls through to the next pattern. -/
def validPort : Option PortReq → Bool
  | some r => 1 ≤ r.port && r.port ≤ 65535
  | none => false

def detectPortTestRequest (message : String) : Option PortReq :=
  let m := jsTrimChars message.data
  let r1 := scanAnywhere portP1At m
  let r2 := scanAnywhere portP2At m
  let r3 := scanAnywhere portP3At m
  let r4 := scanAnywhere portP4At m
  if validPort r1 then r1
  else if validPort r2 then r2
  else if validPort r3 then r3
  else if validPort r4 then r4
  else none

/-- Regex `\s*[?.]?$`. -/
def endPunct (r : List Char) : Bool :=
  let r' := r.dropWhile isJsWs
  r'.isEmpty || r' = ['?'] || r' = ['.']

/-- Regex `(it|that|them)` followed by a continuation. -/
def pronounThen (l : List Char) (k : List Char → Bool) : Bool :=
  (match matchCI "it".data l with | some r => k r | none => false) ||
  (match matchCI "that".data l with | some r => k r | none => false) ||
  (match matchCI "them".data l with | some r => k r | none => false)

/-- Core of `detectPingIntentWithoutHost`'s first regex after the optional
courtesy prefix: `ping\s*(it|that|them)?\s*[?.]?$`. -/
def pingIntentCore (l : List Char) : Bool :=
  match matchCI "ping".data l with
  | none => false
  | some r1 =>
    let r2 := r1.dropWhile isJsWs
    pronounThen r2 endPunct || endPunct r2

def pingIntentAt (l : List Char) : Bool :=
  (match matchCI "can you ".data l with | some r => pingIntentCore r | none => false) ||
  (match matchCI "please ".data l with | some r => pingIntentCore r | none => false) ||
  (match matchCI "could you ".data l with | some r => pingIntentCore r | none => false) ||
  pingIntentCore l

/-- `detectPingIntentWithoutHost`:
`/\b(?:can you |please |could you )?ping\s*(it|that|them)?\s*[?.]?$/i`
or the anchored `/^ping\s*(it|that|them)\s*[?.]?$/i`. -/
def detectPingIntentWithoutHost (message : String) : Bool :=
  let m := jsTrimChars message.data
  scanBoundaryB pingIntentAt none m ||
    (match matchCI "ping".data m with
     | none => false
     | some r1 => pronounThen (r1.dropWhile isJsWs) endPunct)

/-- `\s*(?:to\s+)?(it|that|them)\s*[?.]?$` after a traceroute keyword. -/
def traceIntentTail (r1 : List Char) : Bool :=
  let r2 := r1.dropWhile isJsWs
  (match (matchCI "to".data r2).bind skipWs1 with
   | some r3 => pronounThen r3 endPunct
   | none => false) ||
  pronounThen r2 endPunct

def traceIntentCore (l : List Char) : Bool :=
  (match matchCI "traceroute".data l with | some r => traceIntentTail r | none => false) ||
  (match matchCI "tracert".data l with | some r => traceIntentTail r | none => false) ||
  (match (((matchCI "trace".data l).bind skipWs1).bind (matchCI "route".data)) with
   | some r => traceIntentTail r | none => false)

def traceIntentAt (l : List Char) : Bool :=
  (match matchCI "can you ".data l with | some r => traceIntentCore r | none => false) ||
  (match matchCI "please ".data l with | some r => traceIntentCore r | none => false) ||
  traceIntentCore l

/-- `detectTracerouteIntentWithoutHost`. -/
def detectTracerouteIntentWithoutHost (message : String) : Bool :=
  let m := jsTrimChars message.data
  scanBoundaryB traceIntentAt none m ||
    ((match matchCI "traceroute".data m with | some r => traceIntentTail r | none => false) ||
     (match matchCI "tracert".data m with | some r => traceIntentTail r | none => false))

/-- First regex of `detectPortTestIntentWithoutHost`:
`\b(?:test|check)\s+port\s+\d{1,5}\s+(?:on\s+)?(it|that|them)\s*[?.]?$`. -/
def portIntent1At (l : List Char) : Bool :=
  match (matchAnyCI ["test".data, "check".data] l).bind skipWs1 with
  | none => false
  | some r2 =>
    match (matchCI "port".data r2).bind skipWs1 with
    | none => false
    | some r4 =>
      match takeDigits1to5 r4 with
      | none => false
      | some pr =>
        match skipWs1 pr.2 with
        | none => false
        | some r6 =>
          (match (matchCI "on".data r6).bind skipWs1 with
           | some r7 => pronounThen r7 endPunct
           | none => false) ||
          pronounThen r6 endPunct

/-- Second regex: `\bport\s+\d{1,5}\s+on\s+(it|that|them)\s*[?.]?$`. -/
def portIntent2At (l : List Char) : Bool :=
  match (matchCI "port".data l).bind skipWs1 with
  | none => false
  | some r2 =>
    match takeDigits1to5 r2 with
    | none => false
    | some pr =>
      match (skipWs1 pr.2).bind (fun r => (matchCI "on".data r).bind skipWs1) with
      | none => false
      | some r5 => pronounThen r5 endPunct

def detectPortTestIntentWithoutHost (message : String) : Bool :=
  let m := jsTrimChars message.data
  scanBoundaryB portIntent1At none m || scanBoundaryB portIntent2At none m

/-- `extractPortFromMessage`: `/\bport\s+(\d{1,5})\b/i`, then the
`1–65535` validation (an out-of-range first match yields `null`). -/
def extractPortAt (l : List Char) : Option Nat :=
  (matchCI "port".data l).bind fun r1 =>
  (skipWs1 r1).bind fun r2 =>
    let ds := r2.takeWhile Char.isDigit
    if ds.length < 1 ∨ ds.length > 5 then none
    else
      match r2.drop ds.length with
      | [] => some ((parseDecDigits ds).getD 0)
      | c :: _ => if isWordChar c then none else some ((parseDecDigits ds).getD 0)

def extractPortFromMessage (message : String) : Option Nat :=
  match scanWithBoundary extractPortAt none (jsTrimChars message.data) with
  | some p => if 1 ≤ p ∧ p ≤ 65535 then some p else none
  | none => none

/-- `conversationHistory.slice(-6)`. -/
def lastSix {α : Type} (l : List α) : List α :=
  l.drop (l.length - 6)

/-- `.join(' ')`. -/
def joinSpace : List String → String
  | [] => ""
  | s :: rest => rest.foldl (fun acc t => acc ++ " " ++ t) s

/-- One diagnostic command executed by the context formatter. -/
inductive DiagExec where
  | pingExec (host : String) (count : Nat)
  | traceExec (host : String) (maxHops : Nat)
  | portExec (host : String) (port : Nat)
  deriving Repr, DecidableEq

/-- The executed diagnostics in execution order: ping, then traceroute,
then port test — each fires at most once, from its own request option. -/
def assembleDiag (p : Option PingReq) (t : Option TraceReq) (po : Option PortReq) :
    List DiagExec :=
  (match p with | some r => [.pingExec r.host r.count] | none => []) ++
  (match t with | some r => [.traceExec r.host r.maxHops] | none => []) ++
  (match po with | some r => [.portExec r.host r.port] | none => [])

/-- The diagnostic-orchestration slice of `getMonitoringContext` (lines
1146–1195): primary detectors on the trimmed message, conversation-resolved
fallbacks (`resolveHost` is the imported `resolveHostFromConversation`),
then the three executions. -/
def contextDiagnostics (resolveHost : String → Option String)
    (query : String) (history : List String) : List DiagExec :=
  let msg := jsTrimStr query
  let recentText := joinSpace (lastSix history)
  let pingReq0 := if msg ≠ "" then detectPingRequest msg else none
  let traceReq0 := if msg ≠ "" then detectTracerouteRequest msg else none
  let pingReq :=
    match pingReq0 with
    | some r => some r
    | none =>
      if msg ≠ "" && detectPingIntentWithoutHost msg then
        match resolveHost (recentText ++ " " ++ msg) with
        | some h => some { host := h, count := 4 }
        | none => none
      else none
  let traceReq :=
    match traceReq0 with
    | some r => some r
    | none =>
      if msg ≠ "" && detectTracerouteIntentWithoutHost msg then
        match resolveHost (recentText ++ " " ++ msg) with
        | some h => some { host := h, maxHops := 15 }
        | none => none
      else none
  let portReq0 := if msg ≠ "" then detectPortTestRequest msg else none
  let portReq :=
    match portReq0 with
    | some r => some r
    | none =>
      if msg ≠ "" && detectPortTestIntentWithoutHost msg then
        match resolveHost (recentText ++ " " ++ msg), extractPortFromMessage msg with
        | some h, some p => some { host := h, port := p }
        | _, _ => none
      else none
  assembleDiag pingReq traceReq portReq

theorem assembleDiag_counts (p : Option PingReq) (t : Option TraceReq)
    (po : Option PortReq) :
    ((assembleDiag p t po).countP
      fun e => match e with | .pingExec _ _ => true | _ => false) ≤ 1 ∧
    ((assembleDiag p t po).countP
      fun e => match e with | .traceExec _ _ => true | _ => false) ≤ 1 ∧
    ((assembleDiag p t po).countP
      fun e => match e with | .portExec _ _ => true | _ => false) ≤ 1 := by
  rcases p with _ | rp <;> rcases t with _ | rt <;> rcases po with _ | rpo <;>
    simp [assembleDiag, List.countP_cons, List.countP_append, List.countP_nil]

/-- A message carrying both a ping and a traceroute request. -/
def msgPingTrace : String := "ping 8.8.8.8 traceroute 1.1.1.1"

/-- C8 (counterexample): the message
`"ping 8.8.8.8 traceroute 1.1.1.1"` makes one call execute two
diagnostics — a ping and a traceroute — so "at most one of ping,
traceroute, and port-test per call" is false. -/
theorem singleDiagnostic_counterexample :
    contextDiagnostics (fun _ => none) msgPingTrace [] =
      [.pingExec "8.8.8.8" 4, .traceExec "1.1.1.1" 15] ∧
    (contextDiagnostics (fun _ => none) msgPingTrace []).length = 2 := by
  constructor <;> decide

/-- C8 (amended): per call the formatter executes at most one ping, at most
one traceroute and at most one port test — up to three diagnostics in
total, one per kind — for every message, history and conversation-host
resolver. -/
theorem singleDiagnosticPerKind_amended :
    ∀ (resolver : String → Option String) (query : String) (history : List String),
      ((contextDiagnostics resolver query history).countP
        fun e => match e with | .pingExec _ _ => true | _ => false) ≤ 1 ∧
      ((contextDiagnostics resolver query history).countP
        fun e => match e with | .traceExec _ _ => true | _ => false) ≤ 1 ∧
      ((contextDiagnostics resolver query history).countP
        fun e => match e with | .portExec _ _ => true | _ => false) ≤ 1 := by
  intro resolver query history
  exact assembleDiag_counts _ _ _

end NetworkBot